import Mathlib

/- Verification of the error-classifying script runner (src/debugger.py).

   The script wraps `exec(open("test.py").read())` in a `try` block with a
   single handler `except Exception as e`.  The handler stores `str(e)` in
   `error_message`, prints a header line and the raw message, and then prints
   exactly one of three canned explanation blocks, selected by substring
   tests on the message: first `"not defined" in error_message`
   (case-sensitive), then `"syntax" in error_message.lower()`.

   We embed the handler as a pure function from the message string to the
   list of printed lines, and the whole program as a function from the
   outcome of executing the target file to a program outcome.  Following
   Python semantics, `except Exception` matches a raised error exactly when
   the error class derives from `Exception`; system-exiting errors such as
   `SystemExit` and `KeyboardInterrupt` derive only from `BaseException` and
   are not matched. -/

/-- Python list/string containment: `needle` occurs as a contiguous
subsequence of `haystack` (the empty needle occurs everywhere). -/
def hasSubstrList (needle : List Char) : List Char → Bool
  | [] => needle.isPrefixOf []
  | c :: rest => needle.isPrefixOf (c :: rest) || hasSubstrList needle rest

/-- Python str.lower(): lowercase the message character by character (the
messages classified here are ASCII, where this agrees with Python). -/
def strLower (s : String) : String :=
  ⟨s.toList.map Char.toLower⟩

/-- Python substring membership `pat in s`. -/
def strContains (s pat : String) : Bool :=
  hasSubstrList pat.toList s.toList

/-- The lines printed by the `except Exception` handler of src/debugger.py
for a caught error whose `str(e)` equals `error_message`.  Each `print`
contributes its output lines; `print` of a string beginning with a newline
contributes a blank line followed by the rest. -/
def debuggerOutput (error_message : String) : List String :=
  ["Error detected:", error_message] ++
    (if strContains error_message "not defined" then
      ["", "Explanation:", "You are using a variable before assigning a value."]
    else if strContains (strLower error_message) "syntax" then
      ["", "Explanation:", "There is a syntax mistake. Check brackets or colons."]
    else
      ["", "Explanation:", "An error occurred. Please check your code."])

/-- A raised Python error: its class name, whether that class derives from
`Exception` (so that `except Exception` matches it), and its message
`str(e)`. -/
structure PyError where
  exnType : String
  derivesException : Bool
  msg : String

/-- The handler of src/debugger.py as a function of the caught error: it
reads only `error_message = str(e)`. -/
def handleException (e : PyError) : List String :=
  debuggerOutput e.msg

/-- Outcome of evaluating `exec(open("test.py").read())` inside the `try`
block: either it runs to completion, or some error `e` is raised (including
the `open` call itself failing, e.g. with `FileNotFoundError`). -/
inductive ExecResult where
  | ok : ExecResult
  | error (e : PyError) : ExecResult

/-- Outcome of the whole program: either the `try`/`except` statement
completes, having printed `output`, and the interpreter exits with its
default status 0, or the raised error is not matched by `except Exception`
and escapes the handler. -/
inductive ProgOutcome where
  | handled (output : List String) : ProgOutcome
  | escaped (e : PyError) : ProgOutcome

/-- Top level of src/debugger.py: run the target file; a raised error is
caught iff its class derives from `Exception`, in which case the handler
prints its lines and the program completes; a successful run prints
nothing. -/
def runProgram : ExecResult → ProgOutcome
  | ExecResult.ok => ProgOutcome.handled []
  | ExecResult.error e =>
      if e.derivesException then ProgOutcome.handled (handleException e)
      else ProgOutcome.escaped e

/-- The three explanation branches of the `if`/`elif`/`else` chain. -/
inductive Branch where
  | undefinedVar : Branch
  | synMistake : Branch
  | generic : Branch

/-- The explanation block printed by each branch: a blank line, the literal
`Explanation:` line, and the branch sentence. -/
def explBlock : Branch → List String
  | Branch.undefinedVar =>
      ["", "Explanation:", "You are using a variable before assigning a value."]
  | Branch.synMistake =>
      ["", "Explanation:", "There is a syntax mistake. Check brackets or colons."]
  | Branch.generic =>
      ["", "Explanation:", "An error occurred. Please check your code."]

/-- The branch selected by the classification chain for a message. -/
def classify (error_message : String) : Branch :=
  if strContains error_message "not defined" then Branch.undefinedVar
  else if strContains (strLower error_message) "syntax" then Branch.synMistake
  else Branch.generic

/-- The handler output is the header pair followed by the block of the
selected branch. -/
theorem debuggerOutput_eq_classify (m : String) :
    debuggerOutput m = ["Error detected:", m] ++ explBlock (classify m) := by
  unfold debuggerOutput classify
  rcases h1 : strContains m "not defined" with _ | _ <;>
    rcases h2 : strContains (strLower m) "syntax" with _ | _ <;>
      simp [explBlock]

/-- The three explanation blocks are pairwise distinct. -/
theorem explBlock_injective : Function.Injective explBlock := by
  intro a b h
  cases a <;> cases b <;> first | rfl | exact absurd h (by decide)

/-- The Python error raised when the target file test.py does not exist. -/
def fileNotFoundError : PyError :=
  ⟨"FileNotFoundError", true,
    "[Errno 2] No such file or directory: \x27test.py\x27"⟩

/-- C1: for a caught error whose message contains both the substring
"not defined" and, after lowercasing, the substring "syntax", the handler
prints only the undefined-variable explanation: the "not defined" check is
evaluated first and its match suppresses the syntax branch. -/
theorem c1_not_defined_check_wins (m : String)
    (h1 : strContains m "not defined" = true)
    (_h2 : strContains (strLower m) "syntax" = true) :
    debuggerOutput m =
      ["Error detected:", m, "", "Explanation:",
        "You are using a variable before assigning a value."] := by
  simp [debuggerOutput, h1]

/-- Witness for C1 at the concrete message "Syntax error: x is not defined",
which contains "not defined" and, lowercased, contains "syntax". -/
theorem c1_witness :
    strContains "Syntax error: x is not defined" "not defined" = true ∧
    strContains (strLower "Syntax error: x is not defined") "syntax" = true ∧
    debuggerOutput "Syntax error: x is not defined" =
      ["Error detected:", "Syntax error: x is not defined", "", "Explanation:",
        "You are using a variable before assigning a value."] :=
  ⟨by decide, by decide,
    c1_not_defined_check_wins "Syntax error: x is not defined" (by decide) (by decide)⟩

/-- C2 counterexample: the claim that every raised error is caught and never
escapes is false.  `except Exception` does not match errors deriving only
from `BaseException`: a target file that calls `sys.exit(3)` raises
`SystemExit`, which escapes the handler, so the program does not complete
with the default status 0. -/
theorem c2_counterexample :
    ¬ ∃ out, runProgram (ExecResult.error ⟨"SystemExit", false, "3"⟩) =
      ProgOutcome.handled out := by
  rintro ⟨out, h⟩
  simp [runProgram] at h

/-- C2 amended: every raised error whose class derives from `Exception` is
caught unconditionally at the top level, never re-raised and never surfaced
to a caller, and the program completes normally with the runtime default
status; only errors deriving solely from `BaseException` (such as
`SystemExit` or `KeyboardInterrupt`) escape the handler. -/
theorem c2_exception_never_escapes (e : PyError)
    (h : e.derivesException = true) :
    runProgram (ExecResult.error e) = ProgOutcome.handled (handleException e) := by
  simp [runProgram, h]

/-- Witness for C2 at a concrete caught error. -/
theorem c2_witness :
    runProgram (ExecResult.error ⟨"ZeroDivisionError", true, "division by zero"⟩) =
      ProgOutcome.handled
        (handleException ⟨"ZeroDivisionError", true, "division by zero"⟩) :=
  c2_exception_never_escapes ⟨"ZeroDivisionError", true, "division by zero"⟩ rfl

/-- C3: when test.py does not exist, the `open` call raises
`FileNotFoundError`, whose message contains neither "not defined" nor,
lowercased, "syntax"; the handler catches it and prints the generic
explanation. -/
theorem c3_missing_file_generic_branch :
    strContains fileNotFoundError.msg "not defined" = false ∧
    strContains (strLower fileNotFoundError.msg) "syntax" = false ∧
    runProgram (ExecResult.error fileNotFoundError) =
      ProgOutcome.handled
        ["Error detected:",
          "[Errno 2] No such file or directory: \x27test.py\x27",
          "", "Explanation:", "An error occurred. Please check your code."] :=
  ⟨by decide, by decide, rfl⟩

/-- C4: for every caught error whose message contains the literal substring
"not defined" (case-sensitively), the handler prints "Error detected:", the
raw message, and the explanation that a variable was used before being
assigned a value. -/
theorem c4_not_defined_explanation (m : String)
    (h : strContains m "not defined" = true) :
    debuggerOutput m =
      ["Error detected:", m, "", "Explanation:",
        "You are using a variable before assigning a value."] := by
  simp [debuggerOutput, h]

/-- Witness for C4 at the real NameError message. -/
theorem c4_witness :
    strContains "name \x27x\x27 is not defined" "not defined" = true ∧
    debuggerOutput "name \x27x\x27 is not defined" =
      ["Error detected:", "name \x27x\x27 is not defined", "", "Explanation:",
        "You are using a variable before assigning a value."] :=
  ⟨by decide, c4_not_defined_explanation "name \x27x\x27 is not defined" (by decide)⟩

/-- C5: for every caught error whose message does not contain "not defined"
but whose lowercased message contains "syntax" (a case-insensitive match),
the handler prints "Error detected:", the raw message, and the explanation
pointing at brackets or colons. -/
theorem c5_syn_explanation (m : String)
    (h1 : strContains m "not defined" = false)
    (h2 : strContains (strLower m) "syntax" = true) :
    debuggerOutput m =
      ["Error detected:", m, "", "Explanation:",
        "There is a syntax mistake. Check brackets or colons."] := by
  simp [debuggerOutput, h1, h2]

/-- Witness for C5 at the real SyntaxError message, whose "Syntax" is
matched only thanks to the lowercasing. -/
theorem c5_witness :
    strContains "invalid Syntax (<string>, line 1)" "not defined" = false ∧
    strContains (strLower "invalid Syntax (<string>, line 1)") "syntax" = true ∧
    debuggerOutput "invalid Syntax (<string>, line 1)" =
      ["Error detected:", "invalid Syntax (<string>, line 1)", "", "Explanation:",
        "There is a syntax mistake. Check brackets or colons."] :=
  ⟨by decide, by decide,
    c5_syn_explanation "invalid Syntax (<string>, line 1)" (by decide) (by decide)⟩

/-- C6: for every caught error whose message contains neither "not defined"
nor, lowercased, "syntax", the handler prints "Error detected:", the raw
message, and the generic explanation. -/
theorem c6_generic_explanation (m : String)
    (h1 : strContains m "not defined" = false)
    (h2 : strContains (strLower m) "syntax" = false) :
    debuggerOutput m =
      ["Error detected:", m, "", "Explanation:",
        "An error occurred. Please check your code."] := by
  simp [debuggerOutput, h1, h2]

/-- Witness for C6 at the real IndexError message. -/
theorem c6_witness :
    strContains "list index out of range" "not defined" = false ∧
    strContains (strLower "list index out of range") "syntax" = false ∧
    debuggerOutput "list index out of range" =
      ["Error detected:", "list index out of range", "", "Explanation:",
        "An error occurred. Please check your code."] :=
  ⟨by decide, by decide,
    c6_generic_explanation "list index out of range" (by decide) (by decide)⟩

/-- C7: if the target file exists and executes without raising, the program
prints nothing and completes normally; the handler prints are reached only
on a raised error. -/
theorem c7_success_silent :
    runProgram ExecResult.ok = ProgOutcome.handled [] := rfl

/-- C8: for every caught error, the visible output has the fixed shape: the
header line "Error detected:", the raw message, then a blank line, the line
"Explanation:", and a single explanation sentence drawn from the three
canned ones; no stack trace or any other line is printed. -/
theorem c8_output_shape (e : PyError) :
    ∃ s, handleException e =
        ["Error detected:", e.msg, "", "Explanation:", s] ∧
      (s = "You are using a variable before assigning a value." ∨
       s = "There is a syntax mistake. Check brackets or colons." ∨
       s = "An error occurred. Please check your code.") := by
  unfold handleException debuggerOutput
  split
  · exact ⟨_, rfl, Or.inl rfl⟩
  · split
    · exact ⟨_, rfl, Or.inr (Or.inl rfl)⟩
    · exact ⟨_, rfl, Or.inr (Or.inr rfl)⟩

/-- C9: the handler output is a function of the message string alone: two
caught errors with equal `str(e)`, even of different exception classes,
produce identical output. -/
theorem c9_output_only_depends_on_message (e1 e2 : PyError)
    (h : e1.msg = e2.msg) :
    handleException e1 = handleException e2 := by
  unfold handleException
  rw [h]

/-- Witness for C9: a ValueError and a TypeError with the same message yield
the same output. -/
theorem c9_witness :
    handleException ⟨"ValueError", true, "boom"⟩ =
      handleException ⟨"TypeError", true, "boom"⟩ :=
  c9_output_only_depends_on_message
    ⟨"ValueError", true, "boom"⟩ ⟨"TypeError", true, "boom"⟩ rfl

/-- C10: for every caught error, exactly one explanation block is printed:
the three branches of the `if`/`elif`/`else` chain are exhaustive and
mutually exclusive, so the output extends the header by the block of exactly
one branch. -/
theorem c10_exactly_one_branch (e : PyError) :
    ∃! b : Branch,
      handleException e = ["Error detected:", e.msg] ++ explBlock b := by
  refine ⟨classify e.msg, debuggerOutput_eq_classify e.msg, ?_⟩
  intro b hb
  have h2 : ["Error detected:", e.msg] ++ explBlock b =
      ["Error detected:", e.msg] ++ explBlock (classify e.msg) :=
    hb.symm.trans (debuggerOutput_eq_classify e.msg)
  exact explBlock_injective (List.append_cancel_left h2)
